import Mathlib

/-!
Verification development for the livingoptics/sdk-examples repository.

The repository consists of example scripts driving an external SDK.  The
frame-stream abstraction (open/read/seek/len/write over recorded files and
live devices) is specified in the repository documentation but its code is
not part of the repository; it is modelled here from that specification.
The behaviour of the example scripts themselves (capture loops, exception
handling in frame loops, module import side effects, the GStreamer viewer)
is embedded directly from the script sources.
-/

namespace SdkExamples

/-! ## Data model (spec section 3) -/

/-- Modelled from the spec: the two container formats, a raw format storing
(encoded-view, scene-view) metadata/image pairs per frame, and a decoded
format storing (metadata, scene image, spectra-array) per frame. -/
inductive ContainerFormat
  | loraw
  | lo
deriving DecidableEq, Repr

/-- Modelled from the spec: frame metadata carries a capture timestamp,
frame rate, exposure, gain, and (for decoded frames) the wavelength axis
and sampling coordinate table. -/
structure Metadata where
  timestamp : Nat
  frameRateMicroHz : Nat
  exposureMicroSec : Nat
  gain : Nat
  wavelengths : List Nat
  samplingCoordinates : List (Nat × Nat)
deriving DecidableEq, Repr

/-- Modelled from the spec: a Frame is either the raw layout, a pair of
(metadata, image) tuples for the encoded and scene views, or the decoded
layout, a triple of metadata, scene image and spectra list. -/
inductive Frame
  | raw (encodedMeta : Metadata) (encodedImage : List Nat)
      (sceneMeta : Metadata) (sceneImage : List Nat)
  | decoded (meta : Metadata) (scene : List Nat) (spectra : List (List Nat))
deriving DecidableEq, Repr

/-! ## Container serialization

Modelled from the spec: the container must preserve the exact field layout
needed for a later read to reconstruct an equivalent Frame (no lossy
metadata drop).  The binary layout itself is out of scope in the spec, so a
simple length-prefixed encoding of every field is used; what matters for
the claims is that every Metadata and image field is stored and parsed
back. -/

/-- Length-prefixed encoding of a flat list field. -/
def encList (xs : List Nat) : List Nat := xs.length :: xs

/-- Length-prefixed encoding of a coordinate-pair list field. -/
def encPairList (ps : List (Nat × Nat)) : List Nat :=
  ps.length :: ps.flatMap (fun p => [p.1, p.2])

/-- Length-prefixed encoding of a list-of-lists field (spectra). -/
def encListList (xss : List (List Nat)) : List Nat :=
  xss.length :: xss.flatMap encList

/-- Encoding of a Metadata record: the four scalar fields followed by the
wavelength axis and the sampling-coordinate table. -/
def encMeta (m : Metadata) : List Nat :=
  m.timestamp :: m.frameRateMicroHz :: m.exposureMicroSec :: m.gain ::
    (encList m.wavelengths ++ encPairList m.samplingCoordinates)

/-- Encoding of a Frame, tagged by layout. -/
def encFrame : Frame → List Nat
  | Frame.raw em ei sm si => 0 :: (encMeta em ++ encList ei ++ encMeta sm ++ encList si)
  | Frame.decoded m s sp => 1 :: (encMeta m ++ encList s ++ encListList sp)

/-- Decoder for a length-prefixed flat list; returns the field and the
unconsumed remainder. -/
def decList (l : List Nat) : Option (List Nat × List Nat) :=
  match l with
  | [] => none
  | n :: rest => if n ≤ rest.length then some (rest.take n, rest.drop n) else none

/-- Decoder for a run of coordinate pairs of known count. -/
def decPairs : Nat → List Nat → Option (List (Nat × Nat) × List Nat)
  | 0, r => some ([], r)
  | n + 1, a :: b :: r =>
      match decPairs n r with
      | some (ps, rest) => some ((a, b) :: ps, rest)
      | none => none
  | _ + 1, _ => none

/-- Decoder for a length-prefixed coordinate-pair list. -/
def decPairList (l : List Nat) : Option (List (Nat × Nat) × List Nat) :=
  match l with
  | [] => none
  | n :: rest => decPairs n rest

/-- Decoder for a run of length-prefixed lists of known count. -/
def decLists : Nat → List Nat → Option (List (List Nat) × List Nat)
  | 0, r => some ([], r)
  | n + 1, r =>
      match decList r with
      | some (xs, rest) =>
          match decLists n rest with
          | some (xss, rest2) => some (xs :: xss, rest2)
          | none => none
      | none => none

/-- Decoder for a length-prefixed list-of-lists field. -/
def decListList (l : List Nat) : Option (List (List Nat) × List Nat) :=
  match l with
  | [] => none
  | n :: rest => decLists n rest

/-- Decoder for a Metadata record. -/
def decMeta (l : List Nat) : Option (Metadata × List Nat) :=
  match l with
  | ts :: fr :: ex :: g :: rest =>
      match decList rest with
      | some (wl, rest1) =>
          match decPairList rest1 with
          | some (sc, rest2) => some (⟨ts, fr, ex, g, wl, sc⟩, rest2)
          | none => none
      | none => none
  | _ => none

/-- Decoder for a tagged Frame. -/
def decFrame (l : List Nat) : Option (Frame × List Nat) :=
  match l with
  | 0 :: rest =>
      match decMeta rest with
      | some (em, r1) =>
          match decList r1 with
          | some (ei, r2) =>
              match decMeta r2 with
              | some (sm, r3) =>
                  match decList r3 with
                  | some (si, r4) => some (Frame.raw em ei sm si, r4)
                  | none => none
              | none => none
          | none => none
      | none => none
  | 1 :: rest =>
      match decMeta rest with
      | some (m, r1) =>
          match decList r1 with
          | some (s, r2) =>
              match decListList r2 with
              | some (sp, r3) => some (Frame.decoded m s sp, r3)
              | none => none
          | none => none
      | none => none
  | _ => none

/-- Serialize one frame into one container record. -/
def serializeFrame (f : Frame) : List Nat := encFrame f

/-- Deserialize one container record back into a frame; the whole record
must be consumed. -/
def deserializeFrame (l : List Nat) : Option Frame :=
  match decFrame l with
  | some (f, []) => some f
  | _ => none

/-! ### Round-trip lemmas -/

theorem decList_encList (xs r : List Nat) : decList (encList xs ++ r) = some (xs, r) := by
  simp [encList, decList, List.take_left, List.drop_left, Nat.le_add_right]

theorem decPairs_enc (ps : List (Nat × Nat)) (r : List Nat) :
    decPairs ps.length (ps.flatMap (fun p => [p.1, p.2]) ++ r) = some (ps, r) := by
  induction ps with
  | nil => simp [decPairs]
  | cons p ps ih => cases p with
    | mk a b =>
        have hsh : ((a, b) :: ps).flatMap (fun p => [p.1, p.2]) ++ r
            = a :: b :: (ps.flatMap (fun p => [p.1, p.2]) ++ r) := by simp
        rw [List.length_cons, hsh]
        simp only [decPairs, ih]

theorem decPairList_enc (ps : List (Nat × Nat)) (r : List Nat) :
    decPairList (encPairList ps ++ r) = some (ps, r) := by
  simp [encPairList, decPairList, decPairs_enc]

theorem decLists_enc (xss : List (List Nat)) (r : List Nat) :
    decLists xss.length (xss.flatMap encList ++ r) = some (xss, r) := by
  induction xss with
  | nil => simp [decLists]
  | cons xs xss ih =>
      simp only [List.length_cons, List.flatMap_cons, List.append_assoc, decLists,
        decList_encList, ih]

theorem decListList_enc (xss : List (List Nat)) (r : List Nat) :
    decListList (encListList xss ++ r) = some (xss, r) := by
  simp [encListList, decListList, decLists_enc]

theorem decMeta_encMeta (m : Metadata) (r : List Nat) :
    decMeta (encMeta m ++ r) = some (m, r) := by
  cases m with
  | mk ts fr ex g wl sc =>
      simp [encMeta, decMeta, decList_encList, decPairList_enc]

theorem decFrame_encFrame (f : Frame) (r : List Nat) :
    decFrame (encFrame f ++ r) = some (f, r) := by
  cases f with
  | raw em ei sm si =>
      simp [encFrame, decFrame, decMeta_encMeta, decList_encList]
  | decoded m s sp =>
      simp [encFrame, decFrame, decMeta_encMeta, decList_encList, decListList_enc]

theorem deserialize_serialize (f : Frame) : deserializeFrame (serializeFrame f) = some f := by
  have h := decFrame_encFrame f []
  simp only [List.append_nil] at h
  simp [deserializeFrame, serializeFrame, h]

/-! ## Stream handles (spec sections 4.1 and 7)

Modelled from the spec: the FrameSource contract of section 4.1 with the
error taxonomy of section 7.  The SDK code implementing it is not in the
repository; every operation below follows the spec sentence that defines
it.  Operations are state passing: each returns its outcome together with
the handle afterwards, so that the requirement that a failed operation
leaves the cursor unchanged is a provable statement. -/

/-- Modelled from the spec: the error taxonomy of section 7 (the
acquisition-time errors are kept for completeness; `CorruptRecordError`
covers a record the container decoder cannot parse, which never happens on
stores produced by `write`). -/
inductive StreamError
  | UnavailableSourceError
  | NotFoundError
  | DeviceLostError
  | EndOfStreamError
  | OutOfRangeError
  | UnsupportedOperationError
  | UnsupportedModeError
  | CorruptRecordError
deriving DecidableEq, Repr

/-- Modelled from the spec: a write-mode handle on a file-backed store; the
container format is selected at open time and the store holds one
serialized record per `write` call, in write order. -/
structure WriteHandle where
  format : ContainerFormat
  store : List (List Nat)
deriving DecidableEq, Repr

/-- Modelled from the spec: `open(target, write, format)` yields a
write-mode handle with an empty backing store. -/
def openWrite (fmt : ContainerFormat) : WriteHandle := ⟨fmt, []⟩

/-- Modelled from the spec: `write(frame)` appends a Frame to the backing
store in the container format selected at open time. -/
def WriteHandle.write (h : WriteHandle) (f : Frame) : WriteHandle :=
  ⟨h.format, h.store ++ [serializeFrame f]⟩

/-- Writing a whole list of frames in order. -/
def WriteHandle.writeAll (h : WriteHandle) (fs : List Frame) : WriteHandle :=
  fs.foldl WriteHandle.write h

/-- Modelled from the spec: a read-mode handle on a finite file-backed
source owns an internal cursor (current frame index) over the recorded
store. -/
structure ReadHandle where
  store : List (List Nat)
  cursor : Nat
deriving DecidableEq, Repr

/-- Modelled from the spec: `open(target, read)` on an existing recorded
store positions the cursor at frame 0. -/
def openRead (store : List (List Nat)) : ReadHandle := ⟨store, 0⟩

/-- Modelled from the spec: `len(handle)` returns the total frame count of
a finite source. -/
def ReadHandle.frameCount (h : ReadHandle) : Nat := h.store.length

/-- Modelled from the spec: `read()` fetches exactly one frame at the
current cursor position and advances the cursor by one; it fails with
`EndOfStreamError` if called past the last frame of a finite source, and a
failed read leaves the handle unchanged. -/
def ReadHandle.read (h : ReadHandle) : Except StreamError Frame × ReadHandle :=
  match h.store[h.cursor]? with
  | none => (Except.error StreamError.EndOfStreamError, h)
  | some record =>
      match deserializeFrame record with
      | none => (Except.error StreamError.CorruptRecordError, h)
      | some f => (Except.ok f, ⟨h.store, h.cursor + 1⟩)

/-- Modelled from the spec: `seek(index)` repositions the cursor of a
finite source to an absolute frame index; it fails with `OutOfRangeError`
if index is negative or at least the length, leaving the cursor
unchanged. -/
def ReadHandle.seek (h : ReadHandle) (i : Int) : Option StreamError × ReadHandle :=
  if 0 ≤ i ∧ i < (h.store.length : Int) then (none, ⟨h.store, i.toNat⟩)
  else (some StreamError.OutOfRangeError, h)

/-- Sequential iteration of a read handle, driven by `read` with explicit
fuel: frames are yielded one at a time in store order until a read fails. -/
def ReadHandle.collectFuel : Nat → ReadHandle → List Frame
  | 0, _ => []
  | n + 1, h =>
      match h.read with
      | (Except.ok f, h2) => f :: ReadHandle.collectFuel n h2
      | (Except.error _, _) => []

/-- Modelled from the spec: fully iterating a read handle yields its frames
one at a time in capture order until the end of the finite source. -/
def ReadHandle.collect (h : ReadHandle) : List Frame :=
  ReadHandle.collectFuel h.store.length h

/-- Modelled from the spec: an unbounded (live, device-backed) source; the
sequence of frames the device will deliver is a function of time step, and
the handle owns a cursor into it. -/
structure LiveHandle where
  source : Nat → Frame
  cursor : Nat

/-- Modelled from the spec: on an unbounded source `seek` fails with
`UnsupportedOperationError` and has no effect. -/
def LiveHandle.seek (h : LiveHandle) (_i : Int) : Option StreamError × LiveHandle :=
  (some StreamError.UnsupportedOperationError, h)

/-- Modelled from the spec: on an unbounded source `len` fails with
`UnsupportedOperationError`. -/
def LiveHandle.frameCount (_h : LiveHandle) : Except StreamError Nat :=
  Except.error StreamError.UnsupportedOperationError

/-- The backing store left behind by writing a list of frames, one record
per `write` call, in write order. -/
def storeOf (frames : List Frame) : List (List Nat) :=
  frames.map serializeFrame

/-! ### Handle lemmas -/

theorem writeAll_store (fmt : ContainerFormat) (frames : List Frame) :
    ((openWrite fmt).writeAll frames).store = storeOf frames := by
  suffices hgen : ∀ (h : WriteHandle), (h.writeAll frames).store = h.store ++ storeOf frames by
    simpa [openWrite] using hgen (openWrite fmt)
  induction frames with
  | nil => intro h; simp [WriteHandle.writeAll, storeOf]
  | cons f fs ih =>
      intro h
      simp [WriteHandle.writeAll, storeOf, List.foldl_cons] at ih ⊢
      simpa [WriteHandle.write] using ih (h.write f)

theorem read_storeOf (frames : List Frame) (c : Nat) (hc : c < frames.length) :
    ReadHandle.read ⟨storeOf frames, c⟩
      = (Except.ok (frames.get ⟨c, hc⟩), ⟨storeOf frames, c + 1⟩) := by
  have hget : (storeOf frames)[c]? = some (serializeFrame (frames.get ⟨c, hc⟩)) := by
    rw [storeOf, List.getElem?_map, List.getElem?_eq_getElem hc]
    rfl
  simp [ReadHandle.read, hget, deserialize_serialize]

theorem read_storeOf_past (frames : List Frame) (c : Nat) (hc : frames.length ≤ c) :
    ReadHandle.read ⟨storeOf frames, c⟩
      = (Except.error StreamError.EndOfStreamError, ⟨storeOf frames, c⟩) := by
  have hget : (storeOf frames)[c]? = none := by
    apply List.getElem?_eq_none
    simpa [storeOf] using hc
  simp [ReadHandle.read, hget]

theorem collectFuel_storeOf (n : Nat) :
    ∀ (c : Nat) (frames : List Frame), frames.length ≤ c + n →
      ReadHandle.collectFuel n ⟨storeOf frames, c⟩ = frames.drop c := by
  induction n with
  | zero =>
      intro c frames hle
      rw [Nat.add_zero] at hle
      simp [ReadHandle.collectFuel, List.drop_eq_nil_of_le hle]
  | succ n ih =>
      intro c frames hle
      by_cases hc : c < frames.length
      · have hstep : ReadHandle.collectFuel (n + 1) ⟨storeOf frames, c⟩
            = frames.get ⟨c, hc⟩ :: ReadHandle.collectFuel n ⟨storeOf frames, c + 1⟩ := by
          rw [ReadHandle.collectFuel, read_storeOf frames c hc]
        rw [hstep, ih (c + 1) frames (by omega), List.drop_eq_getElem_cons hc]
        rfl
      · have hge : frames.length ≤ c := Nat.le_of_not_lt hc
        rw [ReadHandle.collectFuel, read_storeOf_past frames c hge]
        simp [List.drop_eq_nil_of_le hge]

theorem collect_storeOf (frames : List Frame) :
    (openRead (storeOf frames)).collect = frames := by
  have hlen : (storeOf frames).length = frames.length := by simp [storeOf]
  have h := collectFuel_storeOf frames.length 0 frames (by omega)
  simpa [ReadHandle.collect, openRead, hlen] using h

theorem seek_storeOf_ok (frames : List Frame) (i : Nat) (hi : i < frames.length) :
    (openRead (storeOf frames)).seek (i : Int) = (none, ⟨storeOf frames, i⟩) := by
  have hlen : (storeOf frames).length = frames.length := by simp [storeOf]
  simp only [ReadHandle.seek, openRead, hlen]
  rw [if_pos ⟨by omega, by exact_mod_cast hi⟩]
  simp

/-! ## Exception handling in the example frame loops

Embedded from the example scripts: each frame-iteration loop that wraps
its body in a try/except is recorded together with the set of exceptions
its handler catches.  A Python `except KeyboardInterrupt` clause catches
exactly `KeyboardInterrupt`; a bare `except` clause catches every
exception.  In every one of these loops the handler body is `break`, so a
caught exception terminates the loop without error while an uncaught one
propagates out of the loop. -/

/-- A sample of Python exception classes that can arise inside a frame
loop; `keyboardInterrupt` is the user-interruption exception. -/
inductive PyExc
  | keyboardInterrupt
  | deviceLostError
  | valueError
  | runtimeError
deriving DecidableEq, Repr

/-- What one loop iteration does when its body raises `e`: break out of
the loop quietly if some except clause catches `e`, otherwise let `e`
propagate out of the loop. -/
inductive LoopOutcome
  | quietBreak
  | propagated (e : PyExc)
deriving DecidableEq, Repr

/-- One frame-iteration loop of an example script: the script it comes
from and the predicate describing which exceptions its except clauses
catch. -/
structure FrameLoop where
  script : String
  catches : PyExc → Bool

/-- Embedded from the scripts: the semantics of raising `e` inside the
try body of a loop whose handlers are `lp.catches` and whose handler body
is `break`. -/
def FrameLoop.onRaise (lp : FrameLoop) (e : PyExc) : LoopOutcome :=
  if lp.catches e then LoopOutcome.quietBreak else LoopOutcome.propagated e

/-- An `except KeyboardInterrupt` clause catches exactly the
user-interruption exception. -/
def catchKeyboardInterrupt : PyExc → Bool :=
  fun e => decide (e = PyExc.keyboardInterrupt)

/-- A bare `except` clause catches every exception. -/
def catchAll : PyExc → Bool := fun _ => true

/-- Embedded from decode/decode_and_display.py lines 61 to 78. -/
def decodeAndDisplayLoop : FrameLoop :=
  ⟨"decode/decode_and_display.py", catchKeyboardInterrupt⟩

/-- Embedded from field_calibration/field_calibration_live_with_calibration_file.py
lines 75 to 91: the handler on line 90 is a bare except clause. -/
def fieldCalibrationLiveWithCalibrationFileLoop : FrameLoop :=
  ⟨"field_calibration/field_calibration_live_with_calibration_file.py", catchAll⟩

/-- Embedded from the example scripts: every frame-iteration loop in the
repository whose body is wrapped in a try/except, with the handler each
one declares. -/
def exampleFrameLoops : List FrameLoop :=
  [ decodeAndDisplayLoop,
    ⟨"applications/NDVI_from_file.py", catchKeyboardInterrupt⟩,
    ⟨"applications/NDVI_live.py", catchKeyboardInterrupt⟩,
    ⟨"applications/spectra_to_rgb.py", catchKeyboardInterrupt⟩,
    ⟨"applications/spectral_segmentation.py", catchKeyboardInterrupt⟩,
    ⟨"applications/spectral_segmentation_from_file.py", catchKeyboardInterrupt⟩,
    ⟨"integrations/yolo/face_spoofing_plus.py", catchKeyboardInterrupt⟩,
    ⟨"integrations/yolo/object_detection.py", catchKeyboardInterrupt⟩,
    ⟨"integrations/opencv/viewer.py", catchKeyboardInterrupt⟩,
    fieldCalibrationLiveWithCalibrationFileLoop ]

/-! ## Import side effects of the matplotlib simple_viewer module

Embedded from integrations/matplotlib/simple_viewer.py lines 40 to 56: the
module-level statements, in program order, that touch process-wide state
when the module is imported.  `setLoggerLevel` records a call to
`logging.getLogger(name).setLevel(level)`; `importModule` records an
module import statement (matplotlib.pyplot goes through `import_extra`);
`getLogger` records `logging.getLogger(name)` without a level change. -/

/-- One module-level effect of importing simple_viewer. -/
inductive ImportEffect
  | setLoggerLevel (name : String) (level : Nat)
  | importModule (name : String)
  | getLogger (name : String)
deriving DecidableEq, Repr

/-- The numeric value of logging.WARNING in CPython. -/
def WARNING : Nat := 30

/-- Embedded from simple_viewer.py lines 40 to 56, in program order. -/
def simpleViewerImportEffects : List ImportEffect :=
  [ ImportEffect.importModule "logging",
    ImportEffect.importModule "typing",
    ImportEffect.importModule "numpy",
    ImportEffect.importModule "lo.sdk.api.camera.camera",
    ImportEffect.importModule "lo.sdk.helpers._import",
    ImportEffect.setLoggerLevel "matplotlib" WARNING,
    ImportEffect.importModule "matplotlib.pyplot",
    ImportEffect.getLogger "lo.sdk.integrations.matplotlib.simple_viewer",
    ImportEffect.setLoggerLevel "PIL" WARNING,
    ImportEffect.setLoggerLevel "PngImagePlugin" WARNING ]

/-- Recognizer for the effects that mutate a logger level. -/
def isSetLevel : ImportEffect → Bool
  | ImportEffect.setLoggerLevel _ _ => true
  | _ => false

/-! ## The capture loops

Embedded from capture/capture_spectra.py lines 67 to 73 and
capture/capture_loraw.py lines 57 to 64.  Both loops enumerate camera
frames as `for i, frame in enumerate(cam)`, write the current frame, and
then test a break condition on `i`; the camera is unbounded, so the loop
runs until the break fires, provided the camera delivers at least that
many frames (`avail` below is how many frames the run delivers). -/

/-- The loop indices at which `write` is called: iteration `i` first
writes, then breaks if `brk i`. -/
def captureWriteIndices (brk : Nat → Bool) : Nat → Nat → List Nat
  | 0, _ => []
  | avail + 1, i => i :: (if brk i then [] else captureWriteIndices brk avail (i + 1))

/-- Embedded from capture_spectra.py: the break test is `i > 10`. -/
def captureSpectraWriteIndices (avail : Nat) : List Nat :=
  captureWriteIndices (fun i => decide (i > 10)) avail 0

/-- Embedded from capture_loraw.py: the break test is `i >= 10`. -/
def captureLorawWriteIndices (avail : Nat) : List Nat :=
  captureWriteIndices (fun i => decide (i ≥ 10)) avail 0

theorem captureWriteIndices_threshold (t : Nat) (brk : Nat → Bool)
    (hbrk : ∀ k, brk k = decide (t < k)) :
    ∀ (avail i : Nat), i ≤ t + 1 → t + 2 ≤ i + avail →
      captureWriteIndices brk avail i = List.range' i (t + 2 - i) := by
  intro avail
  induction avail with
  | zero => intro i h1 h2; omega
  | succ n ih =>
      intro i h1 h2
      rw [captureWriteIndices]
      by_cases hti : t < i
      · have hie : i = t + 1 := by omega
        subst hie
        have hb : brk (t + 1) = true := by rw [hbrk]; simp
        have hone : t + 2 - (t + 1) = 1 := by omega
        simp [hb, hone, List.range']
      · have hb : brk i = false := by rw [hbrk]; simp [hti]
        have hsplit : t + 2 - i = (t + 2 - (i + 1)) + 1 := by omega
        rw [hsplit, List.range'_succ]
        simp only [hb, Bool.false_eq_true, if_false]
        rw [ih (i + 1) (by omega) (by omega)]

theorem captureSpectraWriteIndices_spec (avail : Nat) (h : 12 ≤ avail) :
    captureSpectraWriteIndices avail = List.range 12 := by
  rw [captureSpectraWriteIndices, List.range_eq_range']
  have hmain := captureWriteIndices_threshold 10 (fun i => decide (i > 10)) (fun k => rfl)
      avail 0 (by omega) (by omega)
  simpa using hmain

theorem captureLorawWriteIndices_spec (avail : Nat) (h : 11 ≤ avail) :
    captureLorawWriteIndices avail = List.range 11 := by
  rw [captureLorawWriteIndices, List.range_eq_range']
  have hmain := captureWriteIndices_threshold 9 (fun i => decide (i ≥ 10))
      (fun k => decide_eq_decide.mpr (by omega)) avail 0 (by omega) (by omega)
  simpa using hmain

/-! ## The GStreamer viewer

Embedded from integrations/gstreamer/gst_viewer.py lines 117 to 142: the
`put` method of LOGstImageView.  The pipeline, window and GStreamer state
machine are external; `windowClosed` is the result of the
`self.window_closed()` call and `playing` tells whether
`get_state(...).state == PLAYING` on this call. -/

/-- The fields of LOGstImageView that `put` reads and writes; the
pipeline attribute is `none` until `build_pipeline` runs. -/
structure LOGstImageView where
  inputShape : Option (List Nat)
  outputShape : Option (List Nat)
  pipelineBuilt : Bool
deriving DecidableEq, Repr

/-- The external state `put` consults on one call. -/
structure GstEnv where
  windowClosed : Bool
  playing : Bool
deriving DecidableEq, Repr

/-- Embedded from gst_viewer.py lines 117 to 142: one call to `put`.
Returns the object state afterwards and the list of buffers pushed to the
appsrc during the call, in order. -/
def LOGstImageView.put (st : LOGstImageView) (frameShape frameBytes : List Nat)
    (env : GstEnv) : LOGstImageView × List (List Nat) :=
  let (st1, startupPushes) :=
    if st.pipelineBuilt then (st, ([] : List (List Nat)))
    else
      let ishape := st.inputShape.getD frameShape
      let oshape := st.outputShape.getD ishape
      (⟨some ishape, some oshape, true⟩, [frameBytes])
  if env.windowClosed then (st1, startupPushes)
  else if env.playing then (st1, startupPushes ++ [frameBytes])
  else (st1, startupPushes)

/-- Embedded from gst_viewer.py lines 78 to 85: a freshly constructed
LOGstImageView with no shapes supplied has both shape attributes unset and
no pipeline. -/
def freshGstView : LOGstImageView := ⟨none, none, false⟩

/-! ## Concrete sample data for witnesses -/

/-- A concrete metadata record with every field populated. -/
def sampleMetaA : Metadata := ⟨100, 5120000, 1950000, 0, [430, 560, 690], [(1, 2), (3, 4)]⟩

/-- A second concrete metadata record. -/
def sampleMetaB : Metadata := ⟨101, 5120000, 1950000, 2, [], [(5, 6)]⟩

/-- A concrete raw-layout frame. -/
def sampleRawFrame : Frame := Frame.raw sampleMetaA [7, 8, 9] sampleMetaB [4, 5]

/-- A concrete decoded-layout frame. -/
def sampleDecodedFrame : Frame := Frame.decoded sampleMetaA [1, 2, 3] [[10, 11], [12, 13]]

/-- Eleven concrete frames, the frame count of the capture scenario. -/
def elevenFrames : List Frame :=
  (List.range 11).map (fun k => Frame.decoded ⟨k, 5120000, 1950000, 0, [430], [(k, k)]⟩ [k] [[k]])

/-- A concrete unbounded live handle. -/
def sampleLive : LiveHandle := ⟨fun _ => sampleRawFrame, 0⟩

/-! ## The claims -/

/-- Claim C1: for every finite (file-backed) stream handle and every valid
frame index i, performing seek(i) followed by read() returns a Frame that
is field-for-field equal to the i-th frame obtained by iterating the
handle sequentially from position 0, for both the raw and the decoded
container formats. -/
theorem claimC1_seek_read_matches_sequential (frames : List Frame) (i : Nat)
    (hi : i < frames.length) :
    ((openRead (storeOf frames)).seek (i : Int)).1 = none ∧
    ∃ f, ((((openRead (storeOf frames)).seek (i : Int)).2).read).1 = Except.ok f ∧
      ((openRead (storeOf frames)).collect)[i]? = some f := by
  refine ⟨?_, frames.get ⟨i, hi⟩, ?_, ?_⟩
  · rw [seek_storeOf_ok frames i hi]
  · rw [seek_storeOf_ok frames i hi]
    rw [show ((none : Option StreamError), (⟨storeOf frames, i⟩ : ReadHandle)).2
          = (⟨storeOf frames, i⟩ : ReadHandle) from rfl]
    rw [read_storeOf frames i hi]
  · rw [collect_storeOf frames, List.getElem?_eq_getElem hi]
    simp [List.get_eq_getElem]

/-- Witness for claim C1 on a two-frame store holding one raw-layout and
one decoded-layout frame. -/
theorem claimC1_witness :
    1 < ([sampleRawFrame, sampleDecodedFrame] : List Frame).length ∧
    (((openRead (storeOf [sampleRawFrame, sampleDecodedFrame])).seek (1 : Int)).1 = none ∧
     ∃ f, ((((openRead (storeOf [sampleRawFrame, sampleDecodedFrame])).seek (1 : Int)).2).read).1
          = Except.ok f ∧
       ((openRead (storeOf [sampleRawFrame, sampleDecodedFrame])).collect)[1]? = some f) :=
  ⟨by decide, claimC1_seek_read_matches_sequential [sampleRawFrame, sampleDecodedFrame] 1 (by decide)⟩

/-- Claim C2: for every frame written through a write-mode handle in a
given container format, a later read() of that position from a read-mode
handle on the same backing store reconstructs an equivalent Frame, with no
metadata field dropped (write followed by read is a lossless round
trip). -/
theorem claimC2_write_read_lossless (fmt : ContainerFormat) (frames : List Frame) (j : Nat)
    (hj : j < frames.length) :
    (((openRead (((openWrite fmt).writeAll frames).store)).seek (j : Int)).2.read).1
      = Except.ok (frames.get ⟨j, hj⟩) := by
  rw [writeAll_store fmt frames, seek_storeOf_ok frames j hj]
  rw [show ((none : Option StreamError), (⟨storeOf frames, j⟩ : ReadHandle)).2
        = (⟨storeOf frames, j⟩ : ReadHandle) from rfl]
  rw [read_storeOf frames j hj]

/-- Witness for claim C2 in the raw container format at position 0. -/
theorem claimC2_witness :
    0 < ([sampleRawFrame, sampleDecodedFrame] : List Frame).length ∧
    (((openRead (((openWrite ContainerFormat.loraw).writeAll
          [sampleRawFrame, sampleDecodedFrame]).store)).seek (0 : Int)).2.read).1
      = Except.ok sampleRawFrame :=
  ⟨by decide,
    claimC2_write_read_lossless ContainerFormat.loraw [sampleRawFrame, sampleDecodedFrame] 0
      (by decide)⟩

/-- Claim C3: for every finite source, len(handle) equals the number of
write() calls made while producing it, and fully iterating a finite source
produced by 11 write() calls yields exactly 11 frames, observed in write
order (the capture_loraw.py loop, which breaks once its index reaches 10,
performs exactly 11 such write calls). -/
theorem claimC3_length_equals_writes (fmt : ContainerFormat) (frames : List Frame) (avail : Nat) :
    (openRead (((openWrite fmt).writeAll frames).store)).frameCount = frames.length ∧
    (openRead (((openWrite fmt).writeAll frames).store)).collect = frames ∧
    (frames.length = 11 →
      (openRead (((openWrite fmt).writeAll frames).store)).collect.length = 11) ∧
    (11 ≤ avail → (captureLorawWriteIndices avail).length = 11) := by
  have hstore := writeAll_store fmt frames
  have hcollect : (openRead (((openWrite fmt).writeAll frames).store)).collect = frames := by
    rw [hstore]; exact collect_storeOf frames
  refine ⟨?_, hcollect, ?_, ?_⟩
  · rw [hstore]; simp [ReadHandle.frameCount, openRead, storeOf]
  · intro h11; rw [hcollect, h11]
  · intro havail
    rw [captureLorawWriteIndices_spec avail havail]
    simp

/-- Witness for claim C3 on eleven concrete frames and a camera run that
delivers 64 frames. -/
theorem claimC3_witness :
    (openRead (((openWrite ContainerFormat.lo).writeAll elevenFrames).store)).frameCount = 11 ∧
    (openRead (((openWrite ContainerFormat.lo).writeAll elevenFrames).store)).collect
      = elevenFrames ∧
    (openRead (((openWrite ContainerFormat.lo).writeAll elevenFrames).store)).collect.length
      = 11 ∧
    (captureLorawWriteIndices 64).length = 11 := by
  have h := claimC3_length_equals_writes ContainerFormat.lo elevenFrames 64
  exact ⟨by rw [h.1]; decide, h.2.1, h.2.2.1 (by decide), h.2.2.2 (by decide)⟩

/-- Claim C4: for every finite source with 11 frames, after seek(10) a
read() returns the 11th written frame and advances the cursor by one, and
any subsequent read() past the last frame raises EndOfStreamError. -/
theorem claimC4_seek10_read_then_end (frames : List Frame) (hlen : frames.length = 11) :
    ((openRead (storeOf frames)).seek (10 : Int)).1 = none ∧
    ((openRead (storeOf frames)).seek (10 : Int)).2.cursor = 10 ∧
    (∃ f, ((((openRead (storeOf frames)).seek (10 : Int)).2).read).1 = Except.ok f ∧
        frames[10]? = some f ∧
        ((((openRead (storeOf frames)).seek (10 : Int)).2).read).2.cursor = 11) ∧
    (((((openRead (storeOf frames)).seek (10 : Int)).2).read).2.read).1
      = Except.error StreamError.EndOfStreamError := by
  have h10 : 10 < frames.length := by omega
  have hseek : (openRead (storeOf frames)).seek (10 : Int)
      = (none, ⟨storeOf frames, 10⟩) := by
    simpa using seek_storeOf_ok frames 10 h10
  have hread := read_storeOf frames 10 h10
  have hpast := read_storeOf_past frames 11 (by omega)
  refine ⟨?_, ?_, ⟨frames.get ⟨10, h10⟩, ?_, ?_, ?_⟩, ?_⟩ <;>
    simp [hseek, hread, hpast, List.getElem?_eq_getElem h10, List.get_eq_getElem]

/-- Witness for claim C4 on the eleven concrete frames. -/
theorem claimC4_witness :
    ((openRead (storeOf elevenFrames)).seek (10 : Int)).1 = none ∧
    ((openRead (storeOf elevenFrames)).seek (10 : Int)).2.cursor = 10 ∧
    (∃ f, ((((openRead (storeOf elevenFrames)).seek (10 : Int)).2).read).1 = Except.ok f ∧
        elevenFrames[10]? = some f ∧
        ((((openRead (storeOf elevenFrames)).seek (10 : Int)).2).read).2.cursor = 11) ∧
    (((((openRead (storeOf elevenFrames)).seek (10 : Int)).2).read).2.read).1
      = Except.error StreamError.EndOfStreamError :=
  claimC4_seek10_read_then_end elevenFrames (by decide)

/-- Claim C5: for every finite source and every index with index < 0 or
index ≥ length, seek(index) raises OutOfRangeError and leaves the cursor
unchanged (the failed seek has no effect on subsequent reads); on an
unbounded (live) source, seek raises UnsupportedOperationError. -/
theorem claimC5_seek_out_of_range (frames : List Frame) (i : Int)
    (hbad : i < 0 ∨ (frames.length : Int) ≤ i) (live : LiveHandle) (j : Int) :
    ((openRead (storeOf frames)).seek i).1 = some StreamError.OutOfRangeError ∧
    ((openRead (storeOf frames)).seek i).2 = openRead (storeOf frames) ∧
    ((openRead (storeOf frames)).seek i).2.read = (openRead (storeOf frames)).read ∧
    (live.seek j).1 = some StreamError.UnsupportedOperationError ∧
    (live.seek j).2 = live := by
  have hlen : ((storeOf frames).length : Int) = (frames.length : Int) := by simp [storeOf]
  have hcond : ¬ (0 ≤ i ∧ i < ((storeOf frames).length : Int)) := by
    rw [hlen]; omega
  refine ⟨?_, ?_, ?_, rfl, rfl⟩
  · simp only [ReadHandle.seek, openRead] at hcond ⊢
    rw [if_neg hcond]
  · simp only [ReadHandle.seek, openRead] at hcond ⊢
    rw [if_neg hcond]
  · simp only [ReadHandle.seek, openRead] at hcond ⊢
    rw [if_neg hcond]

/-- Witness for claim C5 at the out-of-range index -1 on a one-frame store
and at index 0 on a live handle. -/
theorem claimC5_witness :
    ((-1 : Int) < 0 ∨ (([sampleRawFrame] : List Frame).length : Int) ≤ -1) ∧
    (((openRead (storeOf [sampleRawFrame])).seek (-1 : Int)).1
        = some StreamError.OutOfRangeError ∧
     ((openRead (storeOf [sampleRawFrame])).seek (-1 : Int)).2
        = openRead (storeOf [sampleRawFrame]) ∧
     ((openRead (storeOf [sampleRawFrame])).seek (-1 : Int)).2.read
        = (openRead (storeOf [sampleRawFrame])).read ∧
     (sampleLive.seek (0 : Int)).1 = some StreamError.UnsupportedOperationError ∧
     (sampleLive.seek (0 : Int)).2 = sampleLive) :=
  ⟨Or.inl (by decide),
    claimC5_seek_out_of_range [sampleRawFrame] (-1) (Or.inl (by decide)) sampleLive 0⟩

/-- Claim C6: for every finite source, opening it in read mode twice and
fully iterating both handles yields identical ordered sequences of frames;
replay is restartable and idempotent (both iterations reproduce the
written sequence). -/
theorem claimC6_reopen_iterate_identical (frames : List Frame) :
    (openRead (storeOf frames)).collect = (openRead (storeOf frames)).collect ∧
    (openRead (storeOf frames)).collect = frames :=
  ⟨rfl, collect_storeOf frames⟩

/-- The handler behaviour an `except KeyboardInterrupt` loop exhibits:
raising the user interruption breaks quietly, everything else
propagates. -/
def interruptOnlyBehaviour (lp : FrameLoop) : Prop :=
  ∀ e : PyExc, lp.onRaise e
    = if e = PyExc.keyboardInterrupt then LoopOutcome.quietBreak else LoopOutcome.propagated e

theorem onRaise_keyboardOnly (s : String) (e : PyExc) :
    (FrameLoop.mk s catchKeyboardInterrupt).onRaise e
      = if e = PyExc.keyboardInterrupt then LoopOutcome.quietBreak
        else LoopOutcome.propagated e := by
  cases e <;> rfl

/-- Counterexample to claim C7: in the frame loop of
field_calibration_live_with_calibration_file.py a bare except clause
catches a non-interruption exception such as a RuntimeError, breaking the
loop quietly instead of letting it propagate, so it is not the case that
every example frame loop catches only the user-interruption exception. -/
theorem claimC7_counterexample :
    ¬ (∀ lp ∈ exampleFrameLoops, interruptOnlyBehaviour lp) := by
  intro hAll
  have hmem : fieldCalibrationLiveWithCalibrationFileLoop ∈ exampleFrameLoops := by
    simp [exampleFrameLoops]
  have h := hAll fieldCalibrationLiveWithCalibrationFileLoop hmem PyExc.runtimeError
  simp [FrameLoop.onRaise, fieldCalibrationLiveWithCalibrationFileLoop, catchAll,
    interruptOnlyBehaviour] at h

/-- Claim C7, amended: in every example frame loop except the one of
field_calibration_live_with_calibration_file.py, only the user-interruption
exception is caught (terminating the loop without error) and every other
exception propagates out of the loop; the frame loop of
field_calibration_live_with_calibration_file.py instead uses a bare except
clause, so every exception raised inside it terminates the loop without
error. -/
theorem claimC7_amended_interrupt_only_except_bare :
    (∀ lp ∈ exampleFrameLoops,
      lp.script ≠ "field_calibration/field_calibration_live_with_calibration_file.py" →
        interruptOnlyBehaviour lp) ∧
    (∀ e : PyExc,
      fieldCalibrationLiveWithCalibrationFileLoop.onRaise e = LoopOutcome.quietBreak) := by
  constructor
  · intro lp hmem hne
    simp only [exampleFrameLoops, List.mem_cons, List.mem_singleton,
      List.not_mem_nil, or_false] at hmem
    rcases hmem with rfl | rfl | rfl | rfl | rfl | rfl | rfl | rfl | rfl | rfl
    · intro e; exact onRaise_keyboardOnly _ e
    · intro e; exact onRaise_keyboardOnly _ e
    · intro e; exact onRaise_keyboardOnly _ e
    · intro e; exact onRaise_keyboardOnly _ e
    · intro e; exact onRaise_keyboardOnly _ e
    · intro e; exact onRaise_keyboardOnly _ e
    · intro e; exact onRaise_keyboardOnly _ e
    · intro e; exact onRaise_keyboardOnly _ e
    · intro e; exact onRaise_keyboardOnly _ e
    · exact absurd rfl hne
  · intro e
    cases e <;> rfl

/-- Witness for the amended claim C7: a RuntimeError propagates out of the
decode_and_display.py loop but is swallowed by the bare except clause of
the field calibration loop. -/
theorem claimC7_amended_witness :
    decodeAndDisplayLoop.onRaise PyExc.runtimeError
      = LoopOutcome.propagated PyExc.runtimeError ∧
    fieldCalibrationLiveWithCalibrationFileLoop.onRaise PyExc.runtimeError
      = LoopOutcome.quietBreak := by
  constructor
  · have h := claimC7_amended_interrupt_only_except_bare.1 decodeAndDisplayLoop
      (by simp [exampleFrameLoops]) (by simp [decodeAndDisplayLoop]) PyExc.runtimeError
    simpa using h
  · exact claimC7_amended_interrupt_only_except_bare.2 PyExc.runtimeError

/-- Claim C8: importing the simple_viewer module mutates process-wide
logging state as an import side effect: the only logger-level mutations it
performs set the matplotlib, PIL and PngImagePlugin logger levels to
WARNING, and the matplotlib one happens before matplotlib.pyplot is
pulled in (an init-before-use ordering constraint); no module-level effect
other than these level mutations, the imports themselves and one
level-preserving getLogger call touches global state. -/
theorem claimC8_simple_viewer_import_effects :
    simpleViewerImportEffects.filter isSetLevel
      = [ImportEffect.setLoggerLevel "matplotlib" WARNING,
         ImportEffect.setLoggerLevel "PIL" WARNING,
         ImportEffect.setLoggerLevel "PngImagePlugin" WARNING] ∧
    simpleViewerImportEffects.indexOf (ImportEffect.setLoggerLevel "matplotlib" WARNING)
      < simpleViewerImportEffects.indexOf (ImportEffect.importModule "matplotlib.pyplot") := by
  constructor
  · rfl
  · decide

/-- Claim C9: the capture loop of capture_spectra.py performs exactly 12
write() calls before closing the output file (the write for loop index i
happens before the i > 10 break test, so frames i = 0 through 11 are all
written), even though its in-line comment says it quits after 10
frames. -/
theorem claimC9_capture_spectra_writes_twelve (avail : Nat) (h : 12 ≤ avail) :
    captureSpectraWriteIndices avail = List.range 12 ∧
    (captureSpectraWriteIndices avail).length = 12 := by
  refine ⟨captureSpectraWriteIndices_spec avail h, ?_⟩
  rw [captureSpectraWriteIndices_spec avail h]
  simp

/-- Witness for claim C9 on a camera run delivering 64 frames. -/
theorem claimC9_witness :
    12 ≤ 64 ∧
    (captureSpectraWriteIndices 64 = List.range 12 ∧
     (captureSpectraWriteIndices 64).length = 12) :=
  ⟨by decide, claimC9_capture_spectra_writes_twelve 64 (by decide)⟩

/-- Claim C10: on the first call to LOGstImageView.put with a frame, when
shapes were not supplied they are inferred from that frame (output_shape
defaults to the inferred input shape), the pipeline is built, and,
provided the pipeline reaches the PLAYING state and the window is not
closed, that first frame bytes are pushed to the appsrc twice, once
during pipeline construction and once on the regular push path; every
later call pushes the frame at most once. -/
theorem claimC10_gst_put_double_push (shape bytes : List Nat) (env : GstEnv)
    (st : LOGstImageView) (hbuilt : st.pipelineBuilt = true) (env2 : GstEnv)
    (bytes2 shape2 : List Nat) :
    (freshGstView.put shape bytes env).1.inputShape = some shape ∧
    (freshGstView.put shape bytes env).1.outputShape = some shape ∧
    (freshGstView.put shape bytes env).1.pipelineBuilt = true ∧
    (env.windowClosed = false → env.playing = true →
      (freshGstView.put shape bytes env).2 = [bytes, bytes]) ∧
    (st.put shape2 bytes2 env2).2.length ≤ 1 := by
  rcases env with ⟨wc, pl⟩
  rcases env2 with ⟨wc2, pl2⟩
  rcases st with ⟨ish, osh, built⟩
  simp only at hbuilt
  subst hbuilt
  cases wc <;> cases pl <;> cases wc2 <;> cases pl2 <;>
    simp [LOGstImageView.put, freshGstView]

/-- Witness for claim C10: a first call on a fresh viewer with the window
open and the pipeline playing, and a later call on a built viewer. -/
theorem claimC10_witness :
    (freshGstView.put [2, 3] [9, 9, 9] ⟨false, true⟩).1.inputShape = some [2, 3] ∧
    (freshGstView.put [2, 3] [9, 9, 9] ⟨false, true⟩).1.outputShape = some [2, 3] ∧
    (freshGstView.put [2, 3] [9, 9, 9] ⟨false, true⟩).1.pipelineBuilt = true ∧
    (false = false → true = true →
      (freshGstView.put [2, 3] [9, 9, 9] ⟨false, true⟩).2 = [[9, 9, 9], [9, 9, 9]]) ∧
    ((LOGstImageView.mk (some [2, 3]) (some [4, 4]) true).put [2, 3] [8, 8] ⟨false, true⟩).2.length
      ≤ 1 :=
  claimC10_gst_put_double_push [2, 3] [9, 9, 9] ⟨false, true⟩
    (LOGstImageView.mk (some [2, 3]) (some [4, 4]) true) rfl ⟨false, true⟩ [8, 8] [2, 3]

end SdkExamples
